import Mathlib

/-!
Verification of the `bahendri/ubuntu_config` provisioning scripts
(`ubuntu_custom_encryption.py` and `setup_desktop.py`).

The scripts are sequential orchestrations of external commands.  The shallow
embedding below models:
  * the Python string primitives the scripts use (`str.strip`, `str.lower`,
    `str.split`, `str.splitlines(1)`, `str.startswith`, substring `in`),
    specialised to the separators the scripts pass them;
  * `difflib.unified_diff` at the level of the contract `check_partitions`
    relies on (empty exactly when the two line sequences are equal);
  * external commands through an environment `Env` mapping an argv list to
    the completed process (exit status and captured stdout); interactive
    input through a list of answer strings;
  * each relevant script function as a Lean function over those inputs,
    returning the mutating commands it runs and whether the pipeline
    proceeds or aborts (a `sys.exit` or an uncaught exception).
-/

/-- Python truth-y whitespace stripped by `str.strip()` (the characters that
can actually occur here are spaces and newlines). -/
def pyIsSpace (c : Char) : Bool :=
  c = ' ' || c = '\t' || c = '\n' || c = '\x0d' || c = '\x0b' || c = '\x0c'

/-- Python `s.strip()`: drop leading and trailing whitespace. -/
def pyStrip (s : List Char) : List Char :=
  ((s.dropWhile pyIsSpace).reverse.dropWhile pyIsSpace).reverse

/-- Python `s.lower()` (ASCII data only in this program). -/
def lower (s : String) : String := ⟨s.data.map Char.toLower⟩

/-- Python `needle in hay` on strings: substring containment.  `List.IsInfix`
is used through its decidable instance so the definition stays executable. -/
def containsSub (hay needle : String) : Bool := decide (needle.data <:+: hay.data)

/-- Python `s.startswith(pre)`. -/
def startswith (s pre : String) : Bool := pre.data.isPrefixOf s.data

/-- Helper for Python `s.splitlines(1)` (keepends): accumulate the current
line in reverse.  Line boundaries are `\r\n`, `\r` and `\n`, the terminators
Python recognises that can occur in this program's data. -/
def splitlines1Aux : List Char → List Char → List (List Char)
  | [], [] => []
  | [], acc => [acc.reverse]
  | '\x0d' :: '\n' :: rest, acc => (acc.reverse ++ ['\x0d', '\n']) :: splitlines1Aux rest []
  | '\x0d' :: rest, acc => (acc.reverse ++ ['\x0d']) :: splitlines1Aux rest []
  | '\n' :: rest, acc => (acc.reverse ++ ['\n']) :: splitlines1Aux rest []
  | c :: rest, acc => splitlines1Aux rest (c :: acc)

/-- Python `s.splitlines(1)`: split into lines, keeping each line's
terminator. -/
def splitlines1 (s : List Char) : List (List Char) := splitlines1Aux s []

/-- Helper for Python `s.split("\n\n")`: scan left to right, accumulating
the current field in reverse; each non-overlapping occurrence of the
two-newline separator closes a field. -/
def split_nnAux : List Char → List Char → List (List Char)
  | [], acc => [acc.reverse]
  | '\n' :: '\n' :: rest, acc => acc.reverse :: split_nnAux rest []
  | c :: rest, acc => split_nnAux rest (c :: acc)

/-- Python `s.split("\n\n")`. -/
def split_nn (s : List Char) : List (List Char) := split_nnAux s []

/-- Python `"\n\n".join(parts)`. -/
def join_nn (parts : List (List Char)) : List Char :=
  List.intercalate ['\n', '\n'] parts

/-- Contract model of `difflib.unified_diff` as `check_partitions` uses it:
the generator yields nothing when the two line sequences are equal, and
otherwise yields the two file-header lines followed by difference lines.
Only emptiness versus non-emptiness of the result is consumed by the
script. -/
def unified_diff (fromlines tolines : List (List Char)) : List (List Char) :=
  if fromlines = tolines then []
  else
    "--- expected\n".data :: "+++ current\n".data ::
      (fromlines.map (fun l => '-' :: l) ++ tolines.map (fun l => '+' :: l))

/-- A completed external process: exit status and captured stdout. -/
structure Proc where
  returncode : Int
  stdout : String
deriving DecidableEq

/-- The external world: what `subprocess.run(argv)` returns for each argv
list.  Probes are read through it; the scripts mostly ignore it for
mutating commands. -/
abbrev Env : Type := List String → Proc

/-- Whether the pipeline keeps running after a step, or stops with a
non-zero exit (`sys.exit(message)` or an uncaught exception). -/
inductive PipeOutcome where
  | proceed
  | abort
deriving DecidableEq

/-! ## ubuntu_custom_encryption.py -/

/-- `LUKS_DEVICES`: partition ↦ mapper name (insertion order preserved, as
for a Python dict). -/
def LUKS_DEVICES : List (String × String) :=
  [("/dev/sda5", "system"), ("/dev/sdb3", "data")]

/-- `LUKS_NAME_MAP`: the inverse dict, name ↦ partition; `none` models a
`KeyError` on lookup. -/
def LUKS_NAME_MAP (name : String) : Option String :=
  (LUKS_DEVICES.find? (fun dn => dn.2 == name)).map Prod.fst

/-- `VOLUME_GROUPS`: volume group ↦ physical volumes. -/
def VOLUME_GROUPS : List (String × List String) :=
  [("system", ["/dev/mapper/system"]), ("data", ["/dev/mapper/data"])]

/-- One logical volume's spec in `LOGICAL_VOLUMES`. -/
structure VolSpec where
  size : List String
  type : String
  filesystem_command : List String
deriving DecidableEq

/-- `LOGICAL_VOLUMES`: volume group ↦ (volume name ↦ spec). -/
def LOGICAL_VOLUMES : List (String × List (String × VolSpec)) :=
  [("system",
     [("boot", ⟨["--size", "1024M"], "ext3", ["mkfs.ext3", "-L", "boot"]⟩),
      ("swap", ⟨["--size", "24576M"], "swap", ["mkswap", "--label=swap"]⟩),
      ("root", ⟨["--extents=100%FREE"], "ext4", ["mkfs.ext4", "-L", "root"]⟩)]),
   ("data",
     [("home", ⟨["--extents=100%FREE"], "ext4", ["mkfs.ext4", "-L", "home"]⟩)])]

/-- The triple-quoted literal inside `expected_partitions`, verbatim: a
leading newline, the two device blocks separated by a blank line, and the
trailing newline plus the closing indentation. -/
def RAW_PARTITIONS : String :=
  "\nBYT;\n/dev/sda:256GB:scsi:512:512:gpt:ATA INTEL SSDSCKKW25:;\n1:1049kB:473MB:472MB:ntfs:Basic data partition:hidden, diag;\n2:473MB:577MB:104MB:fat32:EFI system partition:boot, esp;\n3:577MB:593MB:16.8MB::Microsoft reserved partition:msftres;\n4:593MB:172GB:171GB:ntfs:Windows system partition:msftdata;\n5:172GB:256GB:84.3GB::Ubuntu system partition:;\n\nBYT;\n/dev/sdb:2000GB:scsi:512:4096:gpt:ATA ST2000DX002-2DV1:;\n1:17.4kB:134MB:134MB::Microsoft reserved partition:msftres;\n2:135MB:275GB:275GB::Windows data partition:msftdata;\n3:275GB:2000GB:1725GB::Ubuntu data partition:;\n    "

/-- `expected_partitions()`: the literal stripped, plus a final newline. -/
def expected_partitions : List Char := pyStrip RAW_PARTITIONS.data ++ ['\n']

/-- `query_yes_no`: consume answers until one lowers to `"y"` or `"n"`.
Returns the boolean, the number of prompts issued (= answers consumed),
and the unconsumed input; `none` models `input()` raising `EOFError` when
the input is exhausted. -/
def query_yes_no : List String → Option (Bool × Nat × List String)
  | [] => none
  | choice :: rest =>
    if lower choice = "y" then some (true, 1, rest)
    else if lower choice = "n" then some (false, 1, rest)
    else (query_yes_no rest).map (fun bkr => (bkr.1, bkr.2.1 + 1, bkr.2.2))

/-- The processed capture in `check_partitions`: keep the first two
blank-line-separated blocks of the parted stdout, re-join them, and
terminate with a newline. -/
def current_partitions (stdout : List Char) : List Char :=
  join_nn ((split_nn stdout).take 2) ++ ['\n']

/-- `check_partitions`, as a function of the machine-readable parted stdout,
the `VERBOSE` flag, and the interactive answers.  Returns the printed diff
and the outcome: a non-empty diff means `sys.exit`; otherwise, in verbose
mode, parted is re-run for display and a declined (or exhausted)
confirmation also exits. -/
def check_partitions (stdout : List Char) (verbose : Bool) (inputs : List String) :
    List (List Char) × PipeOutcome :=
  let diff := unified_diff (splitlines1 expected_partitions)
    (splitlines1 (current_partitions stdout))
  if diff ≠ [] then (diff, .abort)
  else if verbose then
    match query_yes_no inputs with
    | some (true, _, _) => (diff, .proceed)
    | some (false, _, _) => (diff, .abort)
    | none => (diff, .abort)
  else (diff, .proceed)

/-- Body of the `open_luks` loop for one device: probe `dmsetup info name`;
open the device unless the probe succeeded and its stdout mentions
`ACTIVE`.  The exit status of `luksOpen` itself is never inspected. -/
def open_luks_unit (env : Env) (device name : String) : List (List String) :=
  let p := env ["sudo", "dmsetup", "info", name]
  if p.returncode ≠ 0 || !containsSub p.stdout "ACTIVE" then
    [["sudo", "cryptsetup", "luksOpen", device, name]]
  else []

/-- `open_luks`: the mutating commands run, and the outcome (it has no
abort path). -/
def open_luks (env : Env) : PipeOutcome × List (List String) :=
  (.proceed, (LUKS_DEVICES.map (fun dn => open_luks_unit env dn.1 dn.2)).flatten)

/-- Body of the `check_physical_volumes` loop for one mapper name: probe
`pvs`; on success skip with a log message, otherwise run `pvcreate` (whose
exit status is never inspected). -/
def pv_unit (env : Env) (name : String) : List (List String) :=
  if (env ["sudo", "pvs", "/dev/mapper/" ++ name]).returncode = 0 then []
  else [["sudo", "pvcreate", "/dev/mapper/" ++ name]]

/-- `check_physical_volumes`: the mutating commands run, and the outcome
(it has no abort path). -/
def check_physical_volumes (env : Env) : PipeOutcome × List (List String) :=
  (.proceed, (LUKS_DEVICES.map (fun dn => pv_unit env dn.2)).flatten)

/-- Body of the `check_volume_groups` loop for one group: probe `vgs`; on
failure, `vgcreate` with the first physical volume and `vgextend` with the
rest (exit statuses never inspected). -/
def vg_unit (env : Env) (name : String) (physical_volumes : List String) :
    List (List String) :=
  if (env ["sudo", "vgs", name]).returncode = 0 then []
  else
    physical_volumes.enum.map (fun ipv =>
      if ipv.1 = 0 then ["sudo", "vgcreate", name, ipv.2]
      else ["sudo", "vgextend", name, ipv.2])

/-- `check_volume_groups`: the mutating commands run, and the outcome (it
has no abort path). -/
def check_volume_groups (env : Env) : PipeOutcome × List (List String) :=
  (.proceed, (VOLUME_GROUPS.map (fun nv => vg_unit env nv.1 nv.2)).flatten)

/-- Body of the `check_logical_volumes` loop for one volume: probe `lvs`
and create the volume if absent; then probe `blkid -s TYPE` and run the
filesystem command unless the desired type already appears in the probe's
stdout (Python `in`).  Exit statuses of the mutating commands are never
inspected. -/
def lv_unit (env : Env) (volume_group : String) (vol : String × VolSpec) :
    List (List String) :=
  let logical_volume := "/dev/mapper/" ++ volume_group ++ "-" ++ vol.1
  (if (env ["sudo", "lvs", logical_volume]).returncode = 0 then []
   else [["sudo", "lvcreate"] ++ vol.2.size ++ ["--name=" ++ vol.1, volume_group]]) ++
  (if containsSub (env ["sudo", "blkid", "-s", "TYPE", logical_volume]).stdout
      vol.2.type then []
   else [["sudo"] ++ vol.2.filesystem_command ++ [logical_volume]])

/-- `check_logical_volumes`: the mutating commands run, and the outcome
(it has no abort path). -/
def check_logical_volumes (env : Env) : PipeOutcome × List (List String) :=
  (.proceed,
    (LOGICAL_VOLUMES.map (fun vgd => (vgd.2.map (lv_unit env vgd.1)).flatten)).flatten)

/-- The five commands of `mount_partitions`, after `c.split()`. -/
def mount_commands : List (List String) :=
  [["sudo", "mkdir", "/mnt/root"],
   ["sudo", "mount", "/dev/mapper/system-root", "/mnt/root"],
   ["sudo", "mount", "/dev/mapper/system-boot", "/mnt/root/boot"],
   ["sudo", "mount", "/dev/sda2", "/mnt/root/boot/efi"],
   ["sudo", "mount", "/dev/mapper/data-home", "/mnt/root/home"]]

/-- `mount_partitions`: every command is run unconditionally and no exit
status is inspected, so the commands are exactly `mount_commands` and the
pipeline always proceeds. -/
def mount_partitions (env : Env) : PipeOutcome × List (List String) :=
  (.proceed, mount_commands.map (fun c => let _p := env c; c))

/-- The `key_files` table in `create_key_files`: key-file path and LUKS
name. -/
def key_files : List (String × String) :=
  [("/mnt/root/etc/crypt.system", "system"), ("/mnt/root/etc/crypt.data", "data")]

/-- Recursion over the `key_files` table: when the key file does not exist,
look up the partition (a missing entry would be an uncaught `KeyError`,
modelled as an abort), then run `dd` for one 512-byte block of
`/dev/urandom` and `cryptsetup luksAddKey`; both completed processes are
bound but their exit statuses are never inspected. -/
def create_key_files_go (file_exists : String → Bool) (env : Env) :
    List (String × String) → PipeOutcome × List (List String)
  | [] => (.proceed, [])
  | (key, luks_name) :: rest =>
    if file_exists key then create_key_files_go file_exists env rest
    else
      match LUKS_NAME_MAP luks_name with
      | none => (.abort, [])
      | some partition =>
        let dd := ["sudo", "dd", "if=/dev/urandom", "of=" ++ key, "count=1", "bs=512"]
        let _p := env dd
        let add := ["sudo", "cryptsetup", "luksAddKey", partition, key]
        let _p2 := env add
        let rec_result := create_key_files_go file_exists env rest
        (rec_result.1, dd :: add :: rec_result.2)

/-- `create_key_files`, as a function of which paths exist and of the
environment. -/
def create_key_files (file_exists : String → Bool) (env : Env) :
    PipeOutcome × List (List String) :=
  create_key_files_go file_exists env key_files

/-- The loop body of `fix_grub`, carrying the `crypto_present` flag: the
hidden-timeout line is written commented out, the quiet line is rewritten
to `false`, an existing cryptodisk line only sets the flag (it is not
written), anything else passes through; at the end the cryptodisk line is
appended when the flag is still unset. -/
def fix_grub_loop : List String → Bool → List String
  | [], crypto_present =>
    if crypto_present then [] else ["GRUB_ENABLE_CRYPTODISK=y\n"]
  | line :: rest, crypto_present =>
    if startswith line "GRUB_HIDDEN_TIMEOUT=0" then
      "#GRUB_HIDDEN_TIMEOUT=0\n" :: fix_grub_loop rest crypto_present
    else if startswith line "GRUB_HIDDEN_TIMEOUT_QUIET=true" then
      "GRUB_HIDDEN_TIMEOUT_QUIET=false\n" :: fix_grub_loop rest crypto_present
    else if startswith line "GRUB_ENABLE_CRYPTODISK=y" then
      fix_grub_loop rest true
    else
      line :: fix_grub_loop rest crypto_present

/-- `fix_grub`'s line transformation: the content written to `grub_new`
as a function of the lines of the copied `grub` file (lines keep their
terminators, as Python file iteration yields them). -/
def fix_grub (lines : List String) : List String := fix_grub_loop lines false

/-- `fix_chroot_stuff`, as a function of the copied `startup.nsh` contents
and the interactive answers.  Every `query_yes_no` result is discarded by
the source, so the function only consumes input: the first hand-off gate,
a second gate only when the efi path marker is missing from `startup.nsh`,
and the final `refreshgrub` gate.  `none` models `input()` raising
`EOFError`; otherwise the pipeline always proceeds. -/
def fix_chroot_stuff (startup : String) (inputs : List String) : Option PipeOutcome :=
  match query_yes_no inputs with
  | none => none
  | some (_, _, rest1) =>
    let after_startup :=
      if containsSub startup "\\EFI\\ubuntu\\grubx64.efi" then some rest1
      else
        match query_yes_no rest1 with
        | none => none
        | some (_, _, rest2) => some rest2
    match after_startup with
    | none => none
    | some rest2 =>
      match query_yes_no rest2 with
      | none => none
      | some _ => some PipeOutcome.proceed

/-! ## setup_desktop.py -/

/-- Result of `subprocess.run` with a timeout: either the process completed
within the limit, or `TimeoutExpired` was raised after the process was
killed. -/
inductive RunOutcome where
  | completed (p : Proc)
  | timedOut
deriving DecidableEq

/-- `is_installed`: probe `dpkg -l package` with `timeout=0.05`.  A
completed probe reports presence as `returncode == 0`; an expired timeout
propagates as an uncaught `TimeoutExpired` exception (there is no
`try`/`except` around the call). -/
def is_installed (r : RunOutcome) : Except String Bool :=
  match r with
  | .completed p => .ok (decide (p.returncode = 0))
  | .timedOut => .error "subprocess.TimeoutExpired"

/-- `install_nautilus`: probe through `is_installed`; when absent, install
the package (via `install_packages`, i.e. `apt install`) and quit nautilus
to trigger the dropbox setup.  An exception from the probe propagates. -/
def install_nautilus (r : RunOutcome) : Except String (List (List String)) :=
  match is_installed r with
  | .error e => .error e
  | .ok true => .ok []
  | .ok false =>
    .ok [["sudo", "apt", "install", "-y", "nautilus-dropbox"], ["nautilus", "--quit"]]

/-- `install_packages` (desktop script): `apt install` with `check=True`,
so a non-zero exit raises `CalledProcessError` and aborts. -/
def install_packages (env : Env) (packages : List String) : PipeOutcome :=
  if (env (["sudo", "apt", "install", "-y"] ++ packages)).returncode = 0 then .proceed
  else .abort

/-- `update_drivers` (desktop script): `ubuntu-drivers autoinstall` with
`check=True`. -/
def update_drivers (env : Env) : PipeOutcome :=
  if (env ["sudo", "ubuntu-drivers", "autoinstall"]).returncode = 0 then .proceed
  else .abort

/-! ## Statement helpers and concrete instances -/

/-- The per-line rewrite `fix_grub` performs on a file with no cryptodisk
line, written as a plain function for stating its specification: comment
out the hidden-timeout line, rewrite the quiet line to `false`, pass
everything else through. -/
def grub_transform (line : String) : String :=
  if startswith line "GRUB_HIDDEN_TIMEOUT=0" then "#GRUB_HIDDEN_TIMEOUT=0\n"
  else if startswith line "GRUB_HIDDEN_TIMEOUT_QUIET=true" then
    "GRUB_HIDDEN_TIMEOUT_QUIET=false\n"
  else line

/-- The expected layout without its final newline: a parted stdout equal to
this is exactly reproduced by `current_partitions` (two blocks, re-joined,
newline appended). -/
def stripped_partitions : List Char := pyStrip RAW_PARTITIONS.data

/-- An environment in which every external command fails with exit
status 1 and empty stdout. -/
def env_all_fail : Env := fun _ => ⟨1, ""⟩

/-- An environment in which every external command succeeds with empty
stdout. -/
def env_all_ok : Env := fun _ => ⟨0, ""⟩

/-- A `startup.nsh` content that already contains the required efi path
marker. -/
def startup_with_marker : String := "fs0:\\EFI\\ubuntu\\grubx64.efi\n"

/-- A filesystem on which no key file exists yet. -/
def no_key_files : String → Bool := fun _ => false

/-! ## Shared lemmas -/

set_option maxRecDepth 100000

theorem splitlines1Aux_flatten (s acc : List Char) :
    (splitlines1Aux s acc).flatten = acc.reverse ++ s := by
  induction s, acc using splitlines1Aux.induct <;> simp_all [splitlines1Aux]

theorem splitlines1_flatten (s : List Char) : (splitlines1 s).flatten = s := by
  simpa using splitlines1Aux_flatten s []

theorem splitlines1_inj {a b : List Char} (h : splitlines1 a = splitlines1 b) :
    a = b := by
  have ha := splitlines1_flatten a
  have hb := splitlines1_flatten b
  rw [← ha, ← hb, h]

theorem unified_diff_eq_nil_iff (a b : List Char) :
    unified_diff (splitlines1 a) (splitlines1 b) = [] ↔ a = b := by
  by_cases h : a = b
  · subst h
    simp [unified_diff]
  · have hne : splitlines1 a ≠ splitlines1 b := fun hc => h (splitlines1_inj hc)
    simp [unified_diff, hne, h]

theorem fix_grub_loop_no_crypto (lines : List String)
    (h : ∀ l ∈ lines, startswith l "GRUB_ENABLE_CRYPTODISK=y" = false) :
    fix_grub_loop lines false =
      lines.map grub_transform ++ ["GRUB_ENABLE_CRYPTODISK=y\n"] := by
  induction lines with
  | nil => rfl
  | cons l rest ih =>
    have hl := h l (List.mem_cons_self l rest)
    have hrest : ∀ x ∈ rest, startswith x "GRUB_ENABLE_CRYPTODISK=y" = false :=
      fun x hx => h x (List.mem_cons_of_mem l hx)
    by_cases h1 : startswith l "GRUB_HIDDEN_TIMEOUT=0" = true
    · simp [fix_grub_loop, grub_transform, h1, ih hrest]
    · by_cases h2 : startswith l "GRUB_HIDDEN_TIMEOUT_QUIET=true" = true
      · simp [fix_grub_loop, grub_transform, h1, h2, ih hrest]
      · simp [fix_grub_loop, grub_transform, h1, h2, hl, ih hrest]

/-! ## Claim theorems -/

/-- C1 (amended): if the captured partition text (first two device blocks,
re-joined and newline-terminated) is identical to the expected layout, the
verifier does not abort in non-verbose mode, and in verbose mode it aborts
exactly when the operator declines the extra confirmation; if the text
differs in even a single character, the verifier prints a non-empty
unified diff and aborts. -/
theorem c1_check_partitions_gate (stdout : List Char) (verbose : Bool)
    (inputs : List String) :
    (current_partitions stdout = expected_partitions → verbose = false →
      check_partitions stdout verbose inputs = ([], .proceed)) ∧
    (current_partitions stdout = expected_partitions → verbose = true →
      ∀ k rem, query_yes_no inputs = some (false, k, rem) →
        check_partitions stdout verbose inputs = ([], .abort)) ∧
    (current_partitions stdout ≠ expected_partitions →
      (check_partitions stdout verbose inputs).1 ≠ [] ∧
      (check_partitions stdout verbose inputs).2 = .abort) := by
  refine ⟨?_, ?_, ?_⟩
  · intro h hv
    have hd : unified_diff (splitlines1 expected_partitions)
        (splitlines1 (current_partitions stdout)) = [] :=
      (unified_diff_eq_nil_iff _ _).mpr h.symm
    simp [check_partitions, hd, hv]
  · intro h hv k rem hq
    have hd : unified_diff (splitlines1 expected_partitions)
        (splitlines1 (current_partitions stdout)) = [] :=
      (unified_diff_eq_nil_iff _ _).mpr h.symm
    simp [check_partitions, hd, hv, hq]
  · intro h
    have hd : unified_diff (splitlines1 expected_partitions)
        (splitlines1 (current_partitions stdout)) ≠ [] := by
      rw [Ne, unified_diff_eq_nil_iff]
      exact fun hh => h hh.symm
    constructor
    · simp [check_partitions, hd]
    · simp [check_partitions, hd]

/-- C1 witness: the stripped expected text reproduces itself and passes in
non-verbose mode; a junk capture yields a non-empty diff and an abort. -/
theorem c1_check_partitions_gate_witness :
    check_partitions stripped_partitions false [] = ([], PipeOutcome.proceed) ∧
    (check_partitions ['x'] false []).2 = PipeOutcome.abort :=
  ⟨(c1_check_partitions_gate stripped_partitions false []).1 (by rfl) rfl,
   ((c1_check_partitions_gate ['x'] false []).2.2 (by decide)).2⟩

/-- C1 counterexample: a run of the verifier on a capture character-for-
character identical to the expected layout can still abort — in verbose
(`--safe`) mode the operator's `n` answer exits the pipeline, so "the
verifier does not abort" does not hold of every run. -/
theorem c1_identical_text_still_aborts_in_verbose_mode :
    current_partitions stripped_partitions = expected_partitions ∧
    (check_partitions stripped_partitions true ["n"]).2 = PipeOutcome.abort := by
  constructor
  · rfl
  · decide

/-- C10: the verifier's captured text is the first two blank-line-separated
blocks of the parted stdout, re-joined and newline-terminated, and the
whole comparison outcome is a function of those two blocks only: stdouts
agreeing on them (whatever third or later device output follows) are
indistinguishable to `check_partitions`. -/
theorem c10_only_first_two_blocks_compared :
    (∀ s, current_partitions s = join_nn ((split_nn s).take 2) ++ ['\n']) ∧
    ∀ s t verbose inputs, (split_nn s).take 2 = (split_nn t).take 2 →
      check_partitions s verbose inputs = check_partitions t verbose inputs := by
  refine ⟨fun s => rfl, ?_⟩
  intro s t v i h
  have hc : current_partitions s = current_partitions t := by
    simp [current_partitions, h]
  simp [check_partitions, hc]

/-- C10 witness: two captures differing only in a third device block
produce identical verifier behaviour. -/
theorem c10_only_first_two_blocks_compared_witness :
    check_partitions "a\n\nb\n\nc".data false [] =
      check_partitions "a\n\nb\n\nd".data false [] :=
  c10_only_first_two_blocks_compared.2 _ _ false [] (by decide)

theorem startswith_timeout_not_quiet {l : String}
    (h1 : startswith l "GRUB_HIDDEN_TIMEOUT=0" = true) :
    startswith l "GRUB_HIDDEN_TIMEOUT_QUIET=true" = false := by
  by_contra hq
  rw [Bool.not_eq_false] at hq
  have p1 : "GRUB_HIDDEN_TIMEOUT=0".data <+: l.data := by
    simpa [startswith, List.isPrefixOf_iff_prefix] using h1
  have p2 : "GRUB_HIDDEN_TIMEOUT_QUIET=true".data <+: l.data := by
    simpa [startswith, List.isPrefixOf_iff_prefix] using hq
  rcases List.prefix_or_prefix_of_prefix p1 p2 with h | h
  · exact absurd h (by decide)
  · exact absurd h (by decide)

theorem grub_transform_no_crypto {l : String}
    (hc : startswith l "GRUB_ENABLE_CRYPTODISK=y" = false) :
    startswith (grub_transform l) "GRUB_ENABLE_CRYPTODISK=y" = false := by
  by_cases h1 : startswith l "GRUB_HIDDEN_TIMEOUT=0" = true
  · simp only [grub_transform, h1, if_true]
    decide
  · by_cases h2 : startswith l "GRUB_HIDDEN_TIMEOUT_QUIET=true" = true
    · simp only [grub_transform, h1, h2, Bool.false_eq_true, if_false, if_true]
      decide
    · simpa [grub_transform, h1, h2] using hc

/-- C3: on an input containing a hidden-timeout line and a quiet line but
no cryptodisk line, `fix_grub` comments out the timeout line, rewrites the
quiet line to `false`, passes every other line through unchanged, and
appends exactly one `GRUB_ENABLE_CRYPTODISK=y` line. -/
theorem c3_fix_grub_patches_grub_defaults (lines : List String)
    (_hto : ∃ l ∈ lines, startswith l "GRUB_HIDDEN_TIMEOUT=0" = true)
    (_hq : ∃ l ∈ lines, startswith l "GRUB_HIDDEN_TIMEOUT_QUIET=true" = true)
    (hc : ∀ l ∈ lines, startswith l "GRUB_ENABLE_CRYPTODISK=y" = false) :
    fix_grub lines = lines.map grub_transform ++ ["GRUB_ENABLE_CRYPTODISK=y\n"] ∧
    List.countP (fun l => startswith l "GRUB_ENABLE_CRYPTODISK=y")
      (fix_grub lines) = 1 ∧
    (∀ l ∈ lines, startswith l "GRUB_HIDDEN_TIMEOUT=0" = true →
      grub_transform l = "#GRUB_HIDDEN_TIMEOUT=0\n") ∧
    (∀ l ∈ lines, startswith l "GRUB_HIDDEN_TIMEOUT_QUIET=true" = true →
      grub_transform l = "GRUB_HIDDEN_TIMEOUT_QUIET=false\n") ∧
    (∀ l ∈ lines, startswith l "GRUB_HIDDEN_TIMEOUT=0" = false →
      startswith l "GRUB_HIDDEN_TIMEOUT_QUIET=true" = false →
      grub_transform l = l) := by
  have hmain : fix_grub lines =
      lines.map grub_transform ++ ["GRUB_ENABLE_CRYPTODISK=y\n"] :=
    fix_grub_loop_no_crypto lines hc
  refine ⟨hmain, ?_, ?_, ?_, ?_⟩
  · rw [hmain, List.countP_append]
    have hzero : List.countP (fun l => startswith l "GRUB_ENABLE_CRYPTODISK=y")
        (lines.map grub_transform) = 0 := by
      rw [List.countP_eq_zero]
      intro l hl
      rcases List.mem_map.mp hl with ⟨x, hx, rfl⟩
      simp [grub_transform_no_crypto (hc x hx)]
    rw [hzero]
    decide
  · intro l _ h1
    simp [grub_transform, h1]
  · intro l _ h2
    have h1 : startswith l "GRUB_HIDDEN_TIMEOUT=0" = false := by
      by_contra hh
      rw [Bool.not_eq_false] at hh
      rw [startswith_timeout_not_quiet hh] at h2
      exact Bool.false_ne_true h2
    simp [grub_transform, h1, h2]
  · intro l _ h1 h2
    simp [grub_transform, h1, h2]

/-- C3 witness: a concrete three-line grub default file is patched as the
claim describes. -/
theorem c3_fix_grub_patches_grub_defaults_witness :
    fix_grub ["GRUB_DEFAULT=0\n", "GRUB_HIDDEN_TIMEOUT=0\n",
        "GRUB_HIDDEN_TIMEOUT_QUIET=true\n"] =
      ["GRUB_DEFAULT=0\n", "#GRUB_HIDDEN_TIMEOUT=0\n",
        "GRUB_HIDDEN_TIMEOUT_QUIET=false\n", "GRUB_ENABLE_CRYPTODISK=y\n"] :=
  ((c3_fix_grub_patches_grub_defaults
      ["GRUB_DEFAULT=0\n", "GRUB_HIDDEN_TIMEOUT=0\n",
        "GRUB_HIDDEN_TIMEOUT_QUIET=true\n"]
      (by decide) (by decide) (by decide)).1).trans (by decide)

/-- C4 (code bug): on a file already containing the cryptodisk line — such
as the output of a first `fix_grub` pass — the `elif` arm consumes the
line without writing it and the `crypto_present` flag then suppresses the
append, so a second application deletes the `GRUB_ENABLE_CRYPTODISK=y`
line entirely instead of preserving it. -/
theorem c4_fix_grub_second_application_deletes_cryptodisk :
    fix_grub ["GRUB_HIDDEN_TIMEOUT=0\n"] =
      ["#GRUB_HIDDEN_TIMEOUT=0\n", "GRUB_ENABLE_CRYPTODISK=y\n"] ∧
    fix_grub (fix_grub ["GRUB_HIDDEN_TIMEOUT=0\n"]) = ["#GRUB_HIDDEN_TIMEOUT=0\n"] ∧
    List.countP (fun l => startswith l "GRUB_ENABLE_CRYPTODISK=y")
      (fix_grub (fix_grub ["GRUB_HIDDEN_TIMEOUT=0\n"])) = 0 := by
  decide

/-- C2 (amended): `y` is returned affirmative after one prompt, `n`
negative after one prompt, and an invalid answer such as `maybe` re-prompts
(one extra prompt) before a valid answer is accepted.  An `n` answer aborts
the pipeline at the call sites that test the result — such as the verbose
partition confirmation — but at the hand-off prompts of `fix_chroot_stuff`
(and the post-install prompt in the main sequence) the result is discarded
and the pipeline proceeds whatever was answered. -/
theorem c2_query_yes_no_gate :
    (∀ rest, query_yes_no ("y" :: rest) = some (true, 1, rest)) ∧
    (∀ rest, query_yes_no ("n" :: rest) = some (false, 1, rest)) ∧
    (∀ rest b k rem, query_yes_no rest = some (b, k, rem) →
      query_yes_no ("maybe" :: rest) = some (b, k + 1, rem)) ∧
    (∀ stdout inputs k rem,
      current_partitions stdout = expected_partitions →
      query_yes_no inputs = some (false, k, rem) →
      (check_partitions stdout true inputs).2 = .abort) ∧
    (∀ startup inputs r, fix_chroot_stuff startup inputs = some r →
      r = PipeOutcome.proceed) := by
  refine ⟨?_, ?_, ?_, ?_, ?_⟩
  · intro rest
    have h1 : lower "y" = "y" := by decide
    simp [query_yes_no, h1]
  · intro rest
    have h1 : ¬ lower "n" = "y" := by decide
    have h2 : lower "n" = "n" := by decide
    simp [query_yes_no, h1, h2]
  · intro rest b k rem h
    have h1 : ¬ lower "maybe" = "y" := by decide
    have h2 : ¬ lower "maybe" = "n" := by decide
    simp [query_yes_no, h1, h2, h]
  · intro stdout inputs k rem hcur hq
    have hd : unified_diff (splitlines1 expected_partitions)
        (splitlines1 (current_partitions stdout)) = [] :=
      (unified_diff_eq_nil_iff _ _).mpr hcur.symm
    simp [check_partitions, hd, hq]
  · intro startup inputs r h
    unfold fix_chroot_stuff at h
    rcases hq1 : query_yes_no inputs with _ | ⟨b1, k1, rest1⟩
    · rw [hq1] at h
      exact absurd h (by simp)
    · rw [hq1] at h
      by_cases hm : containsSub startup "\\EFI\\ubuntu\\grubx64.efi" = true
      · simp only [hm, if_true] at h
        rcases hq3 : query_yes_no rest1 with _ | ⟨b3, k3, rest3⟩
        · rw [hq3] at h
          exact absurd h (by simp)
        · rw [hq3] at h
          simp at h
          exact h.symm
      · simp only [hm, Bool.false_eq_true, if_false] at h
        rcases hq2 : query_yes_no rest1 with _ | ⟨b2, k2, rest2⟩
        · rw [hq2] at h
          exact absurd h (by simp)
        · rw [hq2] at h
          dsimp only at h
          rcases hq3 : query_yes_no rest2 with _ | ⟨b3, k3, rest3⟩
          · rw [hq3] at h
            exact absurd h (by simp)
          · rw [hq3] at h
            simp at h
            exact h.symm

/-- C2 witness: an invalid answer re-prompts once before `y` is accepted,
and `n` at the checked verbose partition confirmation aborts. -/
theorem c2_query_yes_no_gate_witness :
    query_yes_no ["maybe", "y"] = some (true, 2, []) ∧
    (check_partitions stripped_partitions true ["n"]).2 = PipeOutcome.abort :=
  ⟨c2_query_yes_no_gate.2.2.1 ["y"] true 1 [] (c2_query_yes_no_gate.1 []),
   c2_query_yes_no_gate.2.2.2.1 stripped_partitions ["n"] 1 [] (by rfl)
     (c2_query_yes_no_gate.2.1 [])⟩

/-- C2 counterexample: at the `fix_chroot_stuff` call sites the result of
`query_yes_no` is discarded, so answering `n` at every gate still lets the
pipeline proceed — the claim that input `n` aborts the pipeline at every
call site is false. -/
theorem c2_n_does_not_abort_chroot_gates :
    fix_chroot_stuff startup_with_marker ["n", "n"] = some PipeOutcome.proceed := by
  decide

/-- C5: for each entry of the key-file table, when the key file does not
exist the step runs exactly one `dd` generating one 512-byte block from
`/dev/urandom` into that path and exactly one `luksAddKey` registering it
on the partition the name maps to; when the key file exists, neither
command is run for that entry. -/
theorem c5_create_key_files_provisioning (file_exists : String → Bool) (env : Env)
    (key luks_name : String) (hmem : (key, luks_name) ∈ key_files) :
    ∃ partition, LUKS_NAME_MAP luks_name = some partition ∧
      ((file_exists key = false →
        List.count ["sudo", "dd", "if=/dev/urandom", "of=" ++ key, "count=1", "bs=512"]
          (create_key_files file_exists env).2 = 1 ∧
        List.count ["sudo", "cryptsetup", "luksAddKey", partition, key]
          (create_key_files file_exists env).2 = 1) ∧
      (file_exists key = true →
        List.count ["sudo", "dd", "if=/dev/urandom", "of=" ++ key, "count=1", "bs=512"]
          (create_key_files file_exists env).2 = 0 ∧
        List.count ["sudo", "cryptsetup", "luksAddKey", partition, key]
          (create_key_files file_exists env).2 = 0)) := by
  simp only [key_files, List.mem_cons, List.not_mem_nil, or_false] at hmem
  rcases hmem with h | h
  · have hk : key = "/mnt/root/etc/crypt.system" := congrArg Prod.fst h
    have hn : luks_name = "system" := congrArg Prod.snd h
    subst hk
    subst hn
    refine ⟨"/dev/sda5", by decide, ?_, ?_⟩
    · intro hf
      by_cases h2 : file_exists "/mnt/root/etc/crypt.data" = true
      · constructor <;>
          simp [create_key_files, create_key_files_go, key_files, LUKS_NAME_MAP,
            LUKS_DEVICES, hf, h2, List.count_cons]
      · rw [Bool.not_eq_true] at h2
        constructor <;>
          simp [create_key_files, create_key_files_go, key_files, LUKS_NAME_MAP,
            LUKS_DEVICES, hf, h2, List.count_cons]
    · intro hf
      by_cases h2 : file_exists "/mnt/root/etc/crypt.data" = true
      · constructor <;>
          simp [create_key_files, create_key_files_go, key_files, LUKS_NAME_MAP,
            LUKS_DEVICES, hf, h2, List.count_cons]
      · rw [Bool.not_eq_true] at h2
        constructor <;>
          simp [create_key_files, create_key_files_go, key_files, LUKS_NAME_MAP,
            LUKS_DEVICES, hf, h2, List.count_cons]
  · have hk : key = "/mnt/root/etc/crypt.data" := congrArg Prod.fst h
    have hn : luks_name = "data" := congrArg Prod.snd h
    subst hk
    subst hn
    refine ⟨"/dev/sdb3", by decide, ?_, ?_⟩
    · intro hf
      by_cases h1 : file_exists "/mnt/root/etc/crypt.system" = true
      · constructor <;>
          simp [create_key_files, create_key_files_go, key_files, LUKS_NAME_MAP,
            LUKS_DEVICES, hf, h1, List.count_cons]
      · rw [Bool.not_eq_true] at h1
        constructor <;>
          simp [create_key_files, create_key_files_go, key_files, LUKS_NAME_MAP,
            LUKS_DEVICES, hf, h1, List.count_cons]
    · intro hf
      by_cases h1 : file_exists "/mnt/root/etc/crypt.system" = true
      · constructor <;>
          simp [create_key_files, create_key_files_go, key_files, LUKS_NAME_MAP,
            LUKS_DEVICES, hf, h1, List.count_cons]
      · rw [Bool.not_eq_true] at h1
        constructor <;>
          simp [create_key_files, create_key_files_go, key_files, LUKS_NAME_MAP,
            LUKS_DEVICES, hf, h1, List.count_cons]

/-- C5 witness: with no key files present, the system entry gets exactly
one `dd` and one `luksAddKey` on `/dev/sda5`. -/
theorem c5_create_key_files_provisioning_witness :
    List.count ["sudo", "dd", "if=/dev/urandom", "of=" ++ "/mnt/root/etc/crypt.system",
        "count=1", "bs=512"] (create_key_files no_key_files env_all_ok).2 = 1 ∧
    List.count ["sudo", "cryptsetup", "luksAddKey", "/dev/sda5",
        "/mnt/root/etc/crypt.system"] (create_key_files no_key_files env_all_ok).2 = 1 := by
  have h := c5_create_key_files_provisioning no_key_files env_all_ok
    "/mnt/root/etc/crypt.system" "system" (by decide)
  rcases h with ⟨partition, hp, h1, _⟩
  have hpart : partition = "/dev/sda5" := by
    have : some "/dev/sda5" = some partition := by rw [← hp]; decide
    exact (Option.some.inj this).symm
  subst hpart
  exact h1 rfl

theorem create_key_files_never_aborts (file_exists : String → Bool) (env : Env) :
    (create_key_files file_exists env).1 = PipeOutcome.proceed := by
  by_cases h1 : file_exists "/mnt/root/etc/crypt.system" = true <;>
  by_cases h2 : file_exists "/mnt/root/etc/crypt.data" = true <;>
  simp_all [create_key_files, create_key_files_go, key_files, LUKS_NAME_MAP, LUKS_DEVICES]

/-- C6 (amended): the exit status of `cryptsetup luksAddKey` is never
inspected — `create_key_files` completes and the pipeline proceeds
whatever the environment returns for the registration command. -/
theorem c6_luksAddKey_exit_status_ignored (file_exists : String → Bool) (env : Env) :
    (create_key_files file_exists env).1 = PipeOutcome.proceed :=
  create_key_files_never_aborts file_exists env

/-- C6 counterexample: with no key files present and every command failing,
the registration command runs, exits non-zero, and the pipeline still
proceeds — a failed registration is silently skipped, not an abort. -/
theorem c6_failed_luksAddKey_does_not_abort :
    (env_all_fail ["sudo", "cryptsetup", "luksAddKey", "/dev/sda5",
        "/mnt/root/etc/crypt.system"]).returncode = 1 ∧
    List.count ["sudo", "cryptsetup", "luksAddKey", "/dev/sda5",
        "/mnt/root/etc/crypt.system"] (create_key_files no_key_files env_all_fail).2 = 1 ∧
    (create_key_files no_key_files env_all_fail).1 ≠ PipeOutcome.abort := by
  decide

/-- C7 (amended): none of the encryption pipeline's mutating steps
(`luksOpen`, `pvcreate`, `vgcreate`/`vgextend`, `lvcreate`, `mkfs`/`mkswap`,
`mount`, `dd`/`luksAddKey`) inspects an exit status — each step proceeds
whatever the environment returns; only the desktop provisioner's
`check=True` commands (`apt install`, `ubuntu-drivers autoinstall`) abort
on a non-zero exit. -/
theorem c7_mutating_command_failures_are_ignored :
    (∀ env, (open_luks env).1 = PipeOutcome.proceed) ∧
    (∀ env, (check_physical_volumes env).1 = PipeOutcome.proceed) ∧
    (∀ env, (check_volume_groups env).1 = PipeOutcome.proceed) ∧
    (∀ env, (check_logical_volumes env).1 = PipeOutcome.proceed) ∧
    (∀ env, (mount_partitions env).1 = PipeOutcome.proceed ∧
      (mount_partitions env).2 = mount_commands) ∧
    (∀ file_exists env, (create_key_files file_exists env).1 = PipeOutcome.proceed) ∧
    (∀ env packages,
      (env (["sudo", "apt", "install", "-y"] ++ packages)).returncode ≠ 0 →
      install_packages env packages = PipeOutcome.abort) ∧
    (∀ env, (env ["sudo", "ubuntu-drivers", "autoinstall"]).returncode ≠ 0 →
      update_drivers env = PipeOutcome.abort) := by
  refine ⟨fun env => rfl, fun env => rfl, fun env => rfl, fun env => rfl,
    fun env => ⟨rfl, ?_⟩, create_key_files_never_aborts, ?_, ?_⟩
  · simp [mount_partitions]
  · intro env packages h
    have h2 : ¬ (env ("sudo" :: "apt" :: "install" :: "-y" :: packages)).returncode = 0 := by
      simpa using h
    simp [install_packages, h2]
  · intro env h
    simp [update_drivers, h]

/-- C7 witness: a failing `apt install` aborts the desktop provisioner. -/
theorem c7_mutating_command_failures_are_ignored_witness :
    install_packages env_all_fail ["vim"] = PipeOutcome.abort :=
  c7_mutating_command_failures_are_ignored.2.2.2.2.2.2.1 env_all_fail ["vim"] (by decide)

/-- C7 counterexample: with every external command failing, `pvcreate` runs
after its probe fails, exits non-zero, and `check_physical_volumes` still
proceeds; likewise a failing `mount` does not abort `mount_partitions` —
non-zero exits of the mutating encryption commands are not fatal. -/
theorem c7_failed_mutating_commands_do_not_abort :
    (env_all_fail ["sudo", "pvs", "/dev/mapper/system"]).returncode ≠ 0 ∧
    ["sudo", "pvcreate", "/dev/mapper/system"] ∈ (check_physical_volumes env_all_fail).2 ∧
    (env_all_fail ["sudo", "pvcreate", "/dev/mapper/system"]).returncode ≠ 0 ∧
    (check_physical_volumes env_all_fail).1 ≠ PipeOutcome.abort ∧
    (env_all_fail ["sudo", "mount", "/dev/mapper/system-root", "/mnt/root"]).returncode ≠ 0 ∧
    (mount_partitions env_all_fail).1 ≠ PipeOutcome.abort := by
  decide

/-- C8 (amended): when the package probe exceeds its 0.05-second timeout,
`subprocess.run` raises `TimeoutExpired` and `is_installed` has no handler,
so the expiry propagates as an uncaught exception instead of being
swallowed; only a probe that completes with a non-zero exit status is
reported as "not present". -/
theorem c8_is_installed_timeout_propagates :
    is_installed RunOutcome.timedOut = Except.error "subprocess.TimeoutExpired" ∧
    (∀ p : Proc, p.returncode ≠ 0 →
      is_installed (RunOutcome.completed p) = Except.ok false) ∧
    (∀ p : Proc, p.returncode = 0 →
      is_installed (RunOutcome.completed p) = Except.ok true) := by
  refine ⟨rfl, ?_, ?_⟩
  · intro p h
    simp [is_installed, h]
  · intro p h
    simp [is_installed, h]

/-- C8 witness: a completed probe with exit status 1 reports absence. -/
theorem c8_is_installed_timeout_propagates_witness :
    is_installed (RunOutcome.completed ⟨1, ""⟩) = Except.ok false :=
  c8_is_installed_timeout_propagates.2.1 ⟨1, ""⟩ (by decide)

/-- C8 counterexample: an expired timeout does not make the probe report
the package as absent — it yields an uncaught `TimeoutExpired`, not
`false`. -/
theorem c8_timeout_is_not_reported_as_absent :
    is_installed RunOutcome.timedOut ≠ Except.ok false ∧
    is_installed RunOutcome.timedOut = Except.error "subprocess.TimeoutExpired" := by
  constructor
  · intro h
    simp [is_installed] at h
  · rfl

theorem mem_ite_singleton {c d : List String} {P : Prop} [Decidable P]
    (h : c ∈ (if P then ([] : List (List String)) else [d])) : c = d := by
  split at h
  · simp at h
  · simpa using h

theorem count_ite_ne (c d : List String) (P : Prop) [Decidable P] (hne : c ≠ d) :
    List.count c (if P then ([] : List (List String)) else [d]) = 0 := by
  split
  · rfl
  · simp [List.count_cons, hne]

theorem count_ite_le (c d : List String) (P : Prop) [Decidable P] :
    List.count c (if P then ([] : List (List String)) else [d]) ≤ 1 := by
  split
  · simp
  · simp [List.count_cons]
    split <;> simp

theorem count_ite_pos (c : List String) (P : Prop) [Decidable P] (h : P) :
    List.count c (if P then ([] : List (List String)) else [c]) = 0 := by
  simp [if_pos h]

theorem count_append_le_one {c : List String} {m1 m2 : List (List String)}
    (h1 : List.count c m1 ≤ 1) (h2 : List.count c m2 ≤ 1)
    (h12 : c ∈ m1 → List.count c m2 = 0) :
    List.count c (m1 ++ m2) ≤ 1 := by
  rw [List.count_append]
  by_cases hm : c ∈ m1
  · rw [h12 hm]
    omega
  · have hz : List.count c m1 = 0 := by
      simpa using List.count_eq_zero.mpr hm
    omega

theorem install_nautilus_skip (r : RunOutcome) (h : is_installed r = Except.ok true) :
    install_nautilus r = Except.ok [] := by
  simp [install_nautilus, h]

theorem install_nautilus_ok_cases {r : RunOutcome} {l : List (List String)}
    (h : install_nautilus r = Except.ok l) :
    l = [] ∨
    l = [["sudo", "apt", "install", "-y", "nautilus-dropbox"], ["nautilus", "--quit"]] := by
  cases r with
  | timedOut => simp [install_nautilus, is_installed] at h
  | completed p =>
    by_cases hp : p.returncode = 0
    · left
      simp [install_nautilus, is_installed, hp] at h
      exact h
    · right
      simp [install_nautilus, is_installed, hp] at h
      exact h.symm

theorem install_nautilus_at_most_once (r1 r2 : RunOutcome) (l1 l2 : List (List String))
    (h1 : install_nautilus r1 = Except.ok l1) (h2 : install_nautilus r2 = Except.ok l2)
    (hest : ["sudo", "apt", "install", "-y", "nautilus-dropbox"] ∈ l1 →
      is_installed r2 = Except.ok true) :
    List.count ["sudo", "apt", "install", "-y", "nautilus-dropbox"] (l1 ++ l2) ≤ 1 := by
  rw [List.count_append]
  rcases install_nautilus_ok_cases h1 with hl1 | hl1
  · subst hl1
    rcases install_nautilus_ok_cases h2 with hl2 | hl2 <;> subst hl2 <;> decide
  · subst hl1
    have hmem : ["sudo", "apt", "install", "-y", "nautilus-dropbox"] ∈
        [["sudo", "apt", "install", "-y", "nautilus-dropbox"], ["nautilus", "--quit"]] := by
      decide
    have h3 := install_nautilus_skip r2 (hest hmem)
    have hl2 : l2 = [] := Except.ok.inj (h2.symm.trans h3)
    subst hl2
    decide

theorem check_pv_muts (env : Env) :
    (check_physical_volumes env).2 = pv_unit env "system" ++ pv_unit env "data" := by
  simp [check_physical_volumes, LUKS_DEVICES]

theorem pv_unit_eq (env : Env) (n : String) :
    pv_unit env n =
      if (env ["sudo", "pvs", "/dev/mapper/" ++ n]).returncode = 0 then []
      else [["sudo", "pvcreate", "/dev/mapper/" ++ n]] := rfl

theorem mem_pv_unit {env : Env} {n : String} {c : List String} (h : c ∈ pv_unit env n) :
    c = ["sudo", "pvcreate", "/dev/mapper/" ++ n] := by
  rw [pv_unit_eq] at h
  exact mem_ite_singleton h

theorem count_pv_unit_ne (env : Env) (n : String) (c : List String)
    (h : c ≠ ["sudo", "pvcreate", "/dev/mapper/" ++ n]) :
    List.count c (pv_unit env n) = 0 := by
  rw [pv_unit_eq]
  exact count_ite_ne _ _ _ h

theorem count_pv_unit_le (env : Env) (n : String) (c : List String) :
    List.count c (pv_unit env n) ≤ 1 := by
  rw [pv_unit_eq]
  exact count_ite_le _ _ _

theorem pv_skip (env : Env) (name : String)
    (hname : name ∈ LUKS_DEVICES.map Prod.snd)
    (hprobe : (env ["sudo", "pvs", "/dev/mapper/" ++ name]).returncode = 0) :
    ["sudo", "pvcreate", "/dev/mapper/" ++ name] ∉ (check_physical_volumes env).2 := by
  intro hmem
  rw [check_pv_muts] at hmem
  simp only [LUKS_DEVICES, List.map_cons, List.map_nil, List.mem_cons,
    List.not_mem_nil, or_false] at hname
  rcases hname with rfl | rfl
  · rcases List.mem_append.mp hmem with hm | hm
    · rw [pv_unit_eq, if_pos hprobe] at hm
      exact List.not_mem_nil _ hm
    · exact absurd (mem_pv_unit hm) (by decide)
  · rcases List.mem_append.mp hmem with hm | hm
    · exact absurd (mem_pv_unit hm) (by decide)
    · rw [pv_unit_eq, if_pos hprobe] at hm
      exact List.not_mem_nil _ hm

theorem count_pv_muts_le (env : Env) (name : String)
    (hname : name ∈ LUKS_DEVICES.map Prod.snd) :
    List.count ["sudo", "pvcreate", "/dev/mapper/" ++ name]
      (check_physical_volumes env).2 ≤ 1 := by
  rw [check_pv_muts, List.count_append]
  simp only [LUKS_DEVICES, List.map_cons, List.map_nil, List.mem_cons,
    List.not_mem_nil, or_false] at hname
  rcases hname with rfl | rfl
  · rw [count_pv_unit_ne env "data" _ (by decide)]
    have := count_pv_unit_le env "system" ["sudo", "pvcreate", "/dev/mapper/" ++ "system"]
    omega
  · rw [count_pv_unit_ne env "system" _ (by decide)]
    have := count_pv_unit_le env "data" ["sudo", "pvcreate", "/dev/mapper/" ++ "data"]
    omega

theorem pv_count_zero_of_probe (env : Env) (name : String)
    (hname : name ∈ LUKS_DEVICES.map Prod.snd)
    (hprobe : (env ["sudo", "pvs", "/dev/mapper/" ++ name]).returncode = 0) :
    List.count ["sudo", "pvcreate", "/dev/mapper/" ++ name]
      (check_physical_volumes env).2 = 0 := by
  have hnm := pv_skip env name hname hprobe
  simpa using List.count_eq_zero.mpr hnm

theorem pv_at_most_once (env1 env2 : Env) (name : String)
    (hname : name ∈ LUKS_DEVICES.map Prod.snd)
    (hest : ["sudo", "pvcreate", "/dev/mapper/" ++ name] ∈ (check_physical_volumes env1).2 →
      (env2 ["sudo", "pvs", "/dev/mapper/" ++ name]).returncode = 0) :
    List.count ["sudo", "pvcreate", "/dev/mapper/" ++ name]
      ((check_physical_volumes env1).2 ++ (check_physical_volumes env2).2) ≤ 1 :=
  count_append_le_one (count_pv_muts_le env1 name hname) (count_pv_muts_le env2 name hname)
    (fun hm => pv_count_zero_of_probe env2 name hname (hest hm))

theorem count_ite_self_eq (c : List String) (P : Prop) [Decidable P] :
    List.count c (if P then ([] : List (List String)) else [c]) = if P then 0 else 1 := by
  split <;> simp

theorem vg_unit_single (env : Env) (name pv : String) :
    vg_unit env name [pv] =
      if (env ["sudo", "vgs", name]).returncode = 0 then []
      else [["sudo", "vgcreate", name, pv]] := rfl

theorem check_vg_muts (env : Env) :
    (check_volume_groups env).2 =
      vg_unit env "system" ["/dev/mapper/system"] ++
        vg_unit env "data" ["/dev/mapper/data"] := by
  simp [check_volume_groups, VOLUME_GROUPS]

theorem count_vg_unit_ne (env : Env) (name pv : String) (c : List String)
    (h : c ≠ ["sudo", "vgcreate", name, pv]) :
    List.count c (vg_unit env name [pv]) = 0 := by
  rw [vg_unit_single]
  exact count_ite_ne _ _ _ h

theorem count_vg_unit_self (env : Env) (name pv : String) :
    List.count ["sudo", "vgcreate", name, pv] (vg_unit env name [pv]) =
      if (env ["sudo", "vgs", name]).returncode = 0 then 0 else 1 := by
  rw [vg_unit_single]
  exact count_ite_self_eq _ _

theorem vg_count_le (env : Env) (g : String × List String)
    (hTable : g ∈ VOLUME_GROUPS) (pv : String) :
    List.count ["sudo", "vgcreate", g.1, pv] (check_volume_groups env).2 ≤ 1 := by
  rw [check_vg_muts, List.count_append]
  simp only [VOLUME_GROUPS, List.mem_cons, List.not_mem_nil, or_false] at hTable
  rcases hTable with rfl | rfl
  · dsimp only
    rw [count_vg_unit_ne env "data" "/dev/mapper/data" _ (by
      intro heq
      have h2 := congrArg (fun l => l[2]?) heq
      simp at h2)]
    rw [vg_unit_single]
    have := count_ite_le ["sudo", "vgcreate", "system", pv]
      ["sudo", "vgcreate", "system", "/dev/mapper/system"]
      ((env ["sudo", "vgs", "system"]).returncode = 0)
    omega
  · dsimp only
    rw [count_vg_unit_ne env "system" "/dev/mapper/system" _ (by
      intro heq
      have h2 := congrArg (fun l => l[2]?) heq
      simp at h2)]
    rw [vg_unit_single]
    have := count_ite_le ["sudo", "vgcreate", "data", pv]
      ["sudo", "vgcreate", "data", "/dev/mapper/data"]
      ((env ["sudo", "vgs", "data"]).returncode = 0)
    omega

theorem vg_count_zero_of_probe (env : Env) (g : String × List String)
    (hTable : g ∈ VOLUME_GROUPS)
    (hprobe : (env ["sudo", "vgs", g.1]).returncode = 0) (pv : String) :
    List.count ["sudo", "vgcreate", g.1, pv] (check_volume_groups env).2 = 0 := by
  rw [check_vg_muts, List.count_append]
  simp only [VOLUME_GROUPS, List.mem_cons, List.not_mem_nil, or_false] at hTable
  rcases hTable with rfl | rfl
  · dsimp only
    dsimp only at hprobe
    rw [count_vg_unit_ne env "data" "/dev/mapper/data" _ (by
      intro heq
      have h2 := congrArg (fun l => l[2]?) heq
      simp at h2)]
    rw [vg_unit_single, if_pos hprobe]
    simp
  · dsimp only
    dsimp only at hprobe
    rw [count_vg_unit_ne env "system" "/dev/mapper/system" _ (by
      intro heq
      have h2 := congrArg (fun l => l[2]?) heq
      simp at h2)]
    rw [vg_unit_single, if_pos hprobe]
    simp

theorem vg_at_most_once (env1 env2 : Env) (g : String × List String)
    (hTable : g ∈ VOLUME_GROUPS) (pv : String)
    (hest : ["sudo", "vgcreate", g.1, pv] ∈ (check_volume_groups env1).2 →
      (env2 ["sudo", "vgs", g.1]).returncode = 0) :
    List.count ["sudo", "vgcreate", g.1, pv]
      ((check_volume_groups env1).2 ++ (check_volume_groups env2).2) ≤ 1 :=
  count_append_le_one (vg_count_le env1 g hTable pv) (vg_count_le env2 g hTable pv)
    (fun hm => vg_count_zero_of_probe env2 g hTable (hest hm) pv)

theorem lv_unit_eq (env : Env) (vg : String) (vol : String × VolSpec) :
    lv_unit env vg vol =
      (if (env ["sudo", "lvs", "/dev/mapper/" ++ vg ++ "-" ++ vol.1]).returncode = 0 then []
       else [["sudo", "lvcreate"] ++ vol.2.size ++ ["--name=" ++ vol.1, vg]]) ++
      (if containsSub (env ["sudo", "blkid", "-s", "TYPE",
          "/dev/mapper/" ++ vg ++ "-" ++ vol.1]).stdout vol.2.type then []
       else [["sudo"] ++ vol.2.filesystem_command ++
          ["/dev/mapper/" ++ vg ++ "-" ++ vol.1]]) := rfl

theorem check_lv_muts (env : Env) :
    (check_logical_volumes env).2 =
      lv_unit env "system" ("boot", ⟨["--size", "1024M"], "ext3", ["mkfs.ext3", "-L", "boot"]⟩) ++
      (lv_unit env "system" ("swap", ⟨["--size", "24576M"], "swap", ["mkswap", "--label=swap"]⟩) ++
      (lv_unit env "system" ("root", ⟨["--extents=100%FREE"], "ext4", ["mkfs.ext4", "-L", "root"]⟩) ++
      lv_unit env "data" ("home", ⟨["--extents=100%FREE"], "ext4", ["mkfs.ext4", "-L", "home"]⟩))) := by
  simp [check_logical_volumes, LOGICAL_VOLUMES]

theorem count_lv_unit (env : Env) (vg : String) (vol : String × VolSpec) (c : List String)
    (h1 : c ≠ ["sudo", "lvcreate"] ++ vol.2.size ++ ["--name=" ++ vol.1, vg])
    (h2 : c ≠ ["sudo"] ++ vol.2.filesystem_command ++
      ["/dev/mapper/" ++ vg ++ "-" ++ vol.1]) :
    List.count c (lv_unit env vg vol) = 0 := by
  rw [lv_unit_eq, List.count_append, count_ite_ne _ _ _ h1, count_ite_ne _ _ _ h2]

theorem count_lv_unit_create (env : Env) (vg : String) (vol : String × VolSpec)
    (hne : (["sudo", "lvcreate"] ++ vol.2.size ++ ["--name=" ++ vol.1, vg] : List String) ≠
      ["sudo"] ++ vol.2.filesystem_command ++ ["/dev/mapper/" ++ vg ++ "-" ++ vol.1]) :
    List.count (["sudo", "lvcreate"] ++ vol.2.size ++ ["--name=" ++ vol.1, vg])
      (lv_unit env vg vol) =
      if (env ["sudo", "lvs", "/dev/mapper/" ++ vg ++ "-" ++ vol.1]).returncode = 0 then 0
      else 1 := by
  rw [lv_unit_eq, List.count_append, count_ite_self_eq, count_ite_ne _ _ _ hne,
    Nat.add_zero]

theorem count_lv_unit_fs (env : Env) (vg : String) (vol : String × VolSpec)
    (hne : (["sudo"] ++ vol.2.filesystem_command ++
        ["/dev/mapper/" ++ vg ++ "-" ++ vol.1] : List String) ≠
      ["sudo", "lvcreate"] ++ vol.2.size ++ ["--name=" ++ vol.1, vg]) :
    List.count (["sudo"] ++ vol.2.filesystem_command ++
        ["/dev/mapper/" ++ vg ++ "-" ++ vol.1]) (lv_unit env vg vol) =
      if containsSub (env ["sudo", "blkid", "-s", "TYPE",
          "/dev/mapper/" ++ vg ++ "-" ++ vol.1]).stdout vol.2.type then 0
      else 1 := by
  rw [lv_unit_eq, List.count_append, count_ite_self_eq, count_ite_ne _ _ _ hne,
    Nat.zero_add]

theorem lv_count_le (env : Env) (vg : String × List (String × VolSpec))
    (vol : String × VolSpec) (hvg : vg ∈ LOGICAL_VOLUMES) (hvol : vol ∈ vg.2) :
    List.count (["sudo", "lvcreate"] ++ vol.2.size ++ ["--name=" ++ vol.1, vg.1])
      (check_logical_volumes env).2 ≤ 1 := by
  simp only [LOGICAL_VOLUMES, List.mem_cons, List.not_mem_nil, or_false] at hvg
  rcases hvg with rfl | rfl <;> dsimp only at hvol <;>
    simp only [List.mem_cons, List.not_mem_nil, or_false] at hvol
  · rcases hvol with rfl | rfl | rfl
    · rw [check_lv_muts]
      simp only [List.count_append]
      rw [count_lv_unit_create env "system"
          ("boot", ⟨["--size", "1024M"], "ext3", ["mkfs.ext3", "-L", "boot"]⟩) (by decide),
        count_lv_unit env "system"
          ("swap", ⟨["--size", "24576M"], "swap", ["mkswap", "--label=swap"]⟩) _
          (by decide) (by decide),
        count_lv_unit env "system"
          ("root", ⟨["--extents=100%FREE"], "ext4", ["mkfs.ext4", "-L", "root"]⟩) _
          (by decide) (by decide),
        count_lv_unit env "data"
          ("home", ⟨["--extents=100%FREE"], "ext4", ["mkfs.ext4", "-L", "home"]⟩) _
          (by decide) (by decide)]
      split <;> omega
    · rw [check_lv_muts]
      simp only [List.count_append]
      rw [count_lv_unit_create env "system"
          ("swap", ⟨["--size", "24576M"], "swap", ["mkswap", "--label=swap"]⟩) (by decide),
        count_lv_unit env "system"
          ("boot", ⟨["--size", "1024M"], "ext3", ["mkfs.ext3", "-L", "boot"]⟩) _
          (by decide) (by decide),
        count_lv_unit env "system"
          ("root", ⟨["--extents=100%FREE"], "ext4", ["mkfs.ext4", "-L", "root"]⟩) _
          (by decide) (by decide),
        count_lv_unit env "data"
          ("home", ⟨["--extents=100%FREE"], "ext4", ["mkfs.ext4", "-L", "home"]⟩) _
          (by decide) (by decide)]
      split <;> omega
    · rw [check_lv_muts]
      simp only [List.count_append]
      rw [count_lv_unit_create env "system"
          ("root", ⟨["--extents=100%FREE"], "ext4", ["mkfs.ext4", "-L", "root"]⟩) (by decide),
        count_lv_unit env "system"
          ("boot", ⟨["--size", "1024M"], "ext3", ["mkfs.ext3", "-L", "boot"]⟩) _
          (by decide) (by decide),
        count_lv_unit env "system"
          ("swap", ⟨["--size", "24576M"], "swap", ["mkswap", "--label=swap"]⟩) _
          (by decide) (by decide),
        count_lv_unit env "data"
          ("home", ⟨["--extents=100%FREE"], "ext4", ["mkfs.ext4", "-L", "home"]⟩) _
          (by decide) (by decide)]
      split <;> omega
  · rcases hvol with rfl
    rw [check_lv_muts]
    simp only [List.count_append]
    rw [count_lv_unit_create env "data"
        ("home", ⟨["--extents=100%FREE"], "ext4", ["mkfs.ext4", "-L", "home"]⟩) (by decide),
      count_lv_unit env "system"
        ("boot", ⟨["--size", "1024M"], "ext3", ["mkfs.ext3", "-L", "boot"]⟩) _
        (by decide) (by decide),
      count_lv_unit env "system"
        ("swap", ⟨["--size", "24576M"], "swap", ["mkswap", "--label=swap"]⟩) _
        (by decide) (by decide),
      count_lv_unit env "system"
        ("root", ⟨["--extents=100%FREE"], "ext4", ["mkfs.ext4", "-L", "root"]⟩) _
        (by decide) (by decide)]
    split <;> omega

theorem lv_count_zero_of_probe (env : Env) (vg : String × List (String × VolSpec))
    (vol : String × VolSpec) (hvg : vg ∈ LOGICAL_VOLUMES) (hvol : vol ∈ vg.2)
    (hprobe : (env ["sudo", "lvs", "/dev/mapper/" ++ vg.1 ++ "-" ++ vol.1]).returncode = 0) :
    List.count (["sudo", "lvcreate"] ++ vol.2.size ++ ["--name=" ++ vol.1, vg.1])
      (check_logical_volumes env).2 = 0 := by
  simp only [LOGICAL_VOLUMES, List.mem_cons, List.not_mem_nil, or_false] at hvg
  rcases hvg with rfl | rfl <;> dsimp only at hvol <;>
    simp only [List.mem_cons, List.not_mem_nil, or_false] at hvol
  · rcases hvol with rfl | rfl | rfl <;> dsimp only at hprobe
    · rw [check_lv_muts]
      simp only [List.count_append]
      rw [count_lv_unit_create env "system"
          ("boot", ⟨["--size", "1024M"], "ext3", ["mkfs.ext3", "-L", "boot"]⟩) (by decide),
        count_lv_unit env "system"
          ("swap", ⟨["--size", "24576M"], "swap", ["mkswap", "--label=swap"]⟩) _
          (by decide) (by decide),
        count_lv_unit env "system"
          ("root", ⟨["--extents=100%FREE"], "ext4", ["mkfs.ext4", "-L", "root"]⟩) _
          (by decide) (by decide),
        count_lv_unit env "data"
          ("home", ⟨["--extents=100%FREE"], "ext4", ["mkfs.ext4", "-L", "home"]⟩) _
          (by decide) (by decide), if_pos hprobe]
    · rw [check_lv_muts]
      simp only [List.count_append]
      rw [count_lv_unit_create env "system"
          ("swap", ⟨["--size", "24576M"], "swap", ["mkswap", "--label=swap"]⟩) (by decide),
        count_lv_unit env "system"
          ("boot", ⟨["--size", "1024M"], "ext3", ["mkfs.ext3", "-L", "boot"]⟩) _
          (by decide) (by decide),
        count_lv_unit env "system"
          ("root", ⟨["--extents=100%FREE"], "ext4", ["mkfs.ext4", "-L", "root"]⟩) _
          (by decide) (by decide),
        count_lv_unit env "data"
          ("home", ⟨["--extents=100%FREE"], "ext4", ["mkfs.ext4", "-L", "home"]⟩) _
          (by decide) (by decide), if_pos hprobe]
    · rw [check_lv_muts]
      simp only [List.count_append]
      rw [count_lv_unit_create env "system"
          ("root", ⟨["--extents=100%FREE"], "ext4", ["mkfs.ext4", "-L", "root"]⟩) (by decide),
        count_lv_unit env "system"
          ("boot", ⟨["--size", "1024M"], "ext3", ["mkfs.ext3", "-L", "boot"]⟩) _
          (by decide) (by decide),
        count_lv_unit env "system"
          ("swap", ⟨["--size", "24576M"], "swap", ["mkswap", "--label=swap"]⟩) _
          (by decide) (by decide),
        count_lv_unit env "data"
          ("home", ⟨["--extents=100%FREE"], "ext4", ["mkfs.ext4", "-L", "home"]⟩) _
          (by decide) (by decide), if_pos hprobe]
  · rcases hvol with rfl
    dsimp only at hprobe
    rw [check_lv_muts]
    simp only [List.count_append]
    rw [count_lv_unit_create env "data"
        ("home", ⟨["--extents=100%FREE"], "ext4", ["mkfs.ext4", "-L", "home"]⟩) (by decide),
      count_lv_unit env "system"
        ("boot", ⟨["--size", "1024M"], "ext3", ["mkfs.ext3", "-L", "boot"]⟩) _
        (by decide) (by decide),
      count_lv_unit env "system"
        ("swap", ⟨["--size", "24576M"], "swap", ["mkswap", "--label=swap"]⟩) _
        (by decide) (by decide),
      count_lv_unit env "system"
        ("root", ⟨["--extents=100%FREE"], "ext4", ["mkfs.ext4", "-L", "root"]⟩) _
        (by decide) (by decide), if_pos hprobe]

theorem lv_at_most_once (env1 env2 : Env) (vg : String × List (String × VolSpec))
    (vol : String × VolSpec) (hvg : vg ∈ LOGICAL_VOLUMES) (hvol : vol ∈ vg.2)
    (hest : (["sudo", "lvcreate"] ++ vol.2.size ++ ["--name=" ++ vol.1, vg.1]) ∈
        (check_logical_volumes env1).2 →
      (env2 ["sudo", "lvs", "/dev/mapper/" ++ vg.1 ++ "-" ++ vol.1]).returncode = 0) :
    List.count (["sudo", "lvcreate"] ++ vol.2.size ++ ["--name=" ++ vol.1, vg.1])
      ((check_logical_volumes env1).2 ++ (check_logical_volumes env2).2) ≤ 1 :=
  count_append_le_one (lv_count_le env1 vg vol hvg hvol) (lv_count_le env2 vg vol hvg hvol)
    (fun hm => lv_count_zero_of_probe env2 vg vol hvg hvol (hest hm))

theorem fs_count_le (env : Env) (vg : String × List (String × VolSpec))
    (vol : String × VolSpec) (hvg : vg ∈ LOGICAL_VOLUMES) (hvol : vol ∈ vg.2) :
    List.count (["sudo"] ++ vol.2.filesystem_command ++
        ["/dev/mapper/" ++ vg.1 ++ "-" ++ vol.1])
      (check_logical_volumes env).2 ≤ 1 := by
  simp only [LOGICAL_VOLUMES, List.mem_cons, List.not_mem_nil, or_false] at hvg
  rcases hvg with rfl | rfl <;> dsimp only at hvol <;>
    simp only [List.mem_cons, List.not_mem_nil, or_false] at hvol
  · rcases hvol with rfl | rfl | rfl
    · rw [check_lv_muts]
      simp only [List.count_append]
      rw [count_lv_unit_fs env "system"
          ("boot", ⟨["--size", "1024M"], "ext3", ["mkfs.ext3", "-L", "boot"]⟩) (by decide),
        count_lv_unit env "system"
          ("swap", ⟨["--size", "24576M"], "swap", ["mkswap", "--label=swap"]⟩) _
          (by decide) (by decide),
        count_lv_unit env "system"
          ("root", ⟨["--extents=100%FREE"], "ext4", ["mkfs.ext4", "-L", "root"]⟩) _
          (by decide) (by decide),
        count_lv_unit env "data"
          ("home", ⟨["--extents=100%FREE"], "ext4", ["mkfs.ext4", "-L", "home"]⟩) _
          (by decide) (by decide)]
      split <;> omega
    · rw [check_lv_muts]
      simp only [List.count_append]
      rw [count_lv_unit_fs env "system"
          ("swap", ⟨["--size", "24576M"], "swap", ["mkswap", "--label=swap"]⟩) (by decide),
        count_lv_unit env "system"
          ("boot", ⟨["--size", "1024M"], "ext3", ["mkfs.ext3", "-L", "boot"]⟩) _
          (by decide) (by decide),
        count_lv_unit env "system"
          ("root", ⟨["--extents=100%FREE"], "ext4", ["mkfs.ext4", "-L", "root"]⟩) _
          (by decide) (by decide),
        count_lv_unit env "data"
          ("home", ⟨["--extents=100%FREE"], "ext4", ["mkfs.ext4", "-L", "home"]⟩) _
          (by decide) (by decide)]
      split <;> omega
    · rw [check_lv_muts]
      simp only [List.count_append]
      rw [count_lv_unit_fs env "system"
          ("root", ⟨["--extents=100%FREE"], "ext4", ["mkfs.ext4", "-L", "root"]⟩) (by decide),
        count_lv_unit env "system"
          ("boot", ⟨["--size", "1024M"], "ext3", ["mkfs.ext3", "-L", "boot"]⟩) _
          (by decide) (by decide),
        count_lv_unit env "system"
          ("swap", ⟨["--size", "24576M"], "swap", ["mkswap", "--label=swap"]⟩) _
          (by decide) (by decide),
        count_lv_unit env "data"
          ("home", ⟨["--extents=100%FREE"], "ext4", ["mkfs.ext4", "-L", "home"]⟩) _
          (by decide) (by decide)]
      split <;> omega
  · rcases hvol with rfl
    rw [check_lv_muts]
    simp only [List.count_append]
    rw [count_lv_unit_fs env "data"
        ("home", ⟨["--extents=100%FREE"], "ext4", ["mkfs.ext4", "-L", "home"]⟩) (by decide),
      count_lv_unit env "system"
        ("boot", ⟨["--size", "1024M"], "ext3", ["mkfs.ext3", "-L", "boot"]⟩) _
        (by decide) (by decide),
      count_lv_unit env "system"
        ("swap", ⟨["--size", "24576M"], "swap", ["mkswap", "--label=swap"]⟩) _
        (by decide) (by decide),
      count_lv_unit env "system"
        ("root", ⟨["--extents=100%FREE"], "ext4", ["mkfs.ext4", "-L", "root"]⟩) _
        (by decide) (by decide)]
    split <;> omega

theorem fs_count_zero_of_probe (env : Env) (vg : String × List (String × VolSpec))
    (vol : String × VolSpec) (hvg : vg ∈ LOGICAL_VOLUMES) (hvol : vol ∈ vg.2)
    (hprobe : containsSub (env ["sudo", "blkid", "-s", "TYPE",
        "/dev/mapper/" ++ vg.1 ++ "-" ++ vol.1]).stdout vol.2.type = true) :
    List.count (["sudo"] ++ vol.2.filesystem_command ++
        ["/dev/mapper/" ++ vg.1 ++ "-" ++ vol.1])
      (check_logical_volumes env).2 = 0 := by
  simp only [LOGICAL_VOLUMES, List.mem_cons, List.not_mem_nil, or_false] at hvg
  rcases hvg with rfl | rfl <;> dsimp only at hvol <;>
    simp only [List.mem_cons, List.not_mem_nil, or_false] at hvol
  · rcases hvol with rfl | rfl | rfl <;> dsimp only at hprobe
    · rw [check_lv_muts]
      simp only [List.count_append]
      rw [count_lv_unit_fs env "system"
          ("boot", ⟨["--size", "1024M"], "ext3", ["mkfs.ext3", "-L", "boot"]⟩) (by decide),
        count_lv_unit env "system"
          ("swap", ⟨["--size", "24576M"], "swap", ["mkswap", "--label=swap"]⟩) _
          (by decide) (by decide),
        count_lv_unit env "system"
          ("root", ⟨["--extents=100%FREE"], "ext4", ["mkfs.ext4", "-L", "root"]⟩) _
          (by decide) (by decide),
        count_lv_unit env "data"
          ("home", ⟨["--extents=100%FREE"], "ext4", ["mkfs.ext4", "-L", "home"]⟩) _
          (by decide) (by decide), if_pos hprobe]
    · rw [check_lv_muts]
      simp only [List.count_append]
      rw [count_lv_unit_fs env "system"
          ("swap", ⟨["--size", "24576M"], "swap", ["mkswap", "--label=swap"]⟩) (by decide),
        count_lv_unit env "system"
          ("boot", ⟨["--size", "1024M"], "ext3", ["mkfs.ext3", "-L", "boot"]⟩) _
          (by decide) (by decide),
        count_lv_unit env "system"
          ("root", ⟨["--extents=100%FREE"], "ext4", ["mkfs.ext4", "-L", "root"]⟩) _
          (by decide) (by decide),
        count_lv_unit env "data"
          ("home", ⟨["--extents=100%FREE"], "ext4", ["mkfs.ext4", "-L", "home"]⟩) _
          (by decide) (by decide), if_pos hprobe]
    · rw [check_lv_muts]
      simp only [List.count_append]
      rw [count_lv_unit_fs env "system"
          ("root", ⟨["--extents=100%FREE"], "ext4", ["mkfs.ext4", "-L", "root"]⟩) (by decide),
        count_lv_unit env "system"
          ("boot", ⟨["--size", "1024M"], "ext3", ["mkfs.ext3", "-L", "boot"]⟩) _
          (by decide) (by decide),
        count_lv_unit env "system"
          ("swap", ⟨["--size", "24576M"], "swap", ["mkswap", "--label=swap"]⟩) _
          (by decide) (by decide),
        count_lv_unit env "data"
          ("home", ⟨["--extents=100%FREE"], "ext4", ["mkfs.ext4", "-L", "home"]⟩) _
          (by decide) (by decide), if_pos hprobe]
  · rcases hvol with rfl
    dsimp only at hprobe
    rw [check_lv_muts]
    simp only [List.count_append]
    rw [count_lv_unit_fs env "data"
        ("home", ⟨["--extents=100%FREE"], "ext4", ["mkfs.ext4", "-L", "home"]⟩) (by decide),
      count_lv_unit env "system"
        ("boot", ⟨["--size", "1024M"], "ext3", ["mkfs.ext3", "-L", "boot"]⟩) _
        (by decide) (by decide),
      count_lv_unit env "system"
        ("swap", ⟨["--size", "24576M"], "swap", ["mkswap", "--label=swap"]⟩) _
        (by decide) (by decide),
      count_lv_unit env "system"
        ("root", ⟨["--extents=100%FREE"], "ext4", ["mkfs.ext4", "-L", "root"]⟩) _
        (by decide) (by decide), if_pos hprobe]

theorem fs_at_most_once (env1 env2 : Env) (vg : String × List (String × VolSpec))
    (vol : String × VolSpec) (hvg : vg ∈ LOGICAL_VOLUMES) (hvol : vol ∈ vg.2)
    (hest : (["sudo"] ++ vol.2.filesystem_command ++
        ["/dev/mapper/" ++ vg.1 ++ "-" ++ vol.1]) ∈ (check_logical_volumes env1).2 →
      containsSub (env2 ["sudo", "blkid", "-s", "TYPE",
        "/dev/mapper/" ++ vg.1 ++ "-" ++ vol.1]).stdout vol.2.type = true) :
    List.count (["sudo"] ++ vol.2.filesystem_command ++
        ["/dev/mapper/" ++ vg.1 ++ "-" ++ vol.1])
      ((check_logical_volumes env1).2 ++ (check_logical_volumes env2).2) ≤ 1 :=
  count_append_le_one (fs_count_le env1 vg vol hvg hvol) (fs_count_le env2 vg vol hvg hvol)
    (fun hm => fs_count_zero_of_probe env2 vg vol hvg hvol (hest hm))

/-- C9: for each probe/act pair — package presence (`dpkg -l`/`apt install`),
physical volume (`pvs`/`pvcreate`), volume group (`vgs`/`vgcreate`),
logical volume (`lvs`/`lvcreate`), filesystem type (`blkid`/mkfs command) —
a probe indicating the desired state means the pair's mutating command is
not run, and across two consecutive invocations in which any mutation by
the first run makes the second probe positive, the mutating command runs
at most once. -/
theorem c9_probe_act_idempotence :
    (∀ r, is_installed r = Except.ok true → install_nautilus r = Except.ok []) ∧
    (∀ r1 r2 l1 l2, install_nautilus r1 = Except.ok l1 →
      install_nautilus r2 = Except.ok l2 →
      (["sudo", "apt", "install", "-y", "nautilus-dropbox"] ∈ l1 →
        is_installed r2 = Except.ok true) →
      List.count ["sudo", "apt", "install", "-y", "nautilus-dropbox"] (l1 ++ l2) ≤ 1) ∧
    (∀ env name, name ∈ LUKS_DEVICES.map Prod.snd →
      (env ["sudo", "pvs", "/dev/mapper/" ++ name]).returncode = 0 →
      List.count ["sudo", "pvcreate", "/dev/mapper/" ++ name]
        (check_physical_volumes env).2 = 0) ∧
    (∀ env1 env2 name, name ∈ LUKS_DEVICES.map Prod.snd →
      (["sudo", "pvcreate", "/dev/mapper/" ++ name] ∈ (check_physical_volumes env1).2 →
        (env2 ["sudo", "pvs", "/dev/mapper/" ++ name]).returncode = 0) →
      List.count ["sudo", "pvcreate", "/dev/mapper/" ++ name]
        ((check_physical_volumes env1).2 ++ (check_physical_volumes env2).2) ≤ 1) ∧
    (∀ env g, g ∈ VOLUME_GROUPS → (env ["sudo", "vgs", g.1]).returncode = 0 →
      ∀ pv, List.count ["sudo", "vgcreate", g.1, pv] (check_volume_groups env).2 = 0) ∧
    (∀ env1 env2 g, g ∈ VOLUME_GROUPS → ∀ pv,
      (["sudo", "vgcreate", g.1, pv] ∈ (check_volume_groups env1).2 →
        (env2 ["sudo", "vgs", g.1]).returncode = 0) →
      List.count ["sudo", "vgcreate", g.1, pv]
        ((check_volume_groups env1).2 ++ (check_volume_groups env2).2) ≤ 1) ∧
    (∀ env vg vol, vg ∈ LOGICAL_VOLUMES → vol ∈ vg.2 →
      (env ["sudo", "lvs", "/dev/mapper/" ++ vg.1 ++ "-" ++ vol.1]).returncode = 0 →
      List.count (["sudo", "lvcreate"] ++ vol.2.size ++ ["--name=" ++ vol.1, vg.1])
        (check_logical_volumes env).2 = 0) ∧
    (∀ env1 env2 vg vol, vg ∈ LOGICAL_VOLUMES → vol ∈ vg.2 →
      ((["sudo", "lvcreate"] ++ vol.2.size ++ ["--name=" ++ vol.1, vg.1]) ∈
          (check_logical_volumes env1).2 →
        (env2 ["sudo", "lvs", "/dev/mapper/" ++ vg.1 ++ "-" ++ vol.1]).returncode = 0) →
      List.count (["sudo", "lvcreate"] ++ vol.2.size ++ ["--name=" ++ vol.1, vg.1])
        ((check_logical_volumes env1).2 ++ (check_logical_volumes env2).2) ≤ 1) ∧
    (∀ env vg vol, vg ∈ LOGICAL_VOLUMES → vol ∈ vg.2 →
      containsSub (env ["sudo", "blkid", "-s", "TYPE",
        "/dev/mapper/" ++ vg.1 ++ "-" ++ vol.1]).stdout vol.2.type = true →
      List.count (["sudo"] ++ vol.2.filesystem_command ++
          ["/dev/mapper/" ++ vg.1 ++ "-" ++ vol.1]) (check_logical_volumes env).2 = 0) ∧
    (∀ env1 env2 vg vol, vg ∈ LOGICAL_VOLUMES → vol ∈ vg.2 →
      ((["sudo"] ++ vol.2.filesystem_command ++
          ["/dev/mapper/" ++ vg.1 ++ "-" ++ vol.1]) ∈ (check_logical_volumes env1).2 →
        containsSub (env2 ["sudo", "blkid", "-s", "TYPE",
          "/dev/mapper/" ++ vg.1 ++ "-" ++ vol.1]).stdout vol.2.type = true) →
      List.count (["sudo"] ++ vol.2.filesystem_command ++
          ["/dev/mapper/" ++ vg.1 ++ "-" ++ vol.1])
        ((check_logical_volumes env1).2 ++ (check_logical_volumes env2).2) ≤ 1) :=
  ⟨install_nautilus_skip,
   install_nautilus_at_most_once,
   fun env name hname hprobe => pv_count_zero_of_probe env name hname hprobe,
   fun env1 env2 name hname hest => pv_at_most_once env1 env2 name hname hest,
   fun env g hg hprobe pv => vg_count_zero_of_probe env g hg hprobe pv,
   fun env1 env2 g hg pv hest => vg_at_most_once env1 env2 g hg pv hest,
   fun env vg vol hvg hvol hprobe => lv_count_zero_of_probe env vg vol hvg hvol hprobe,
   fun env1 env2 vg vol hvg hvol hest => lv_at_most_once env1 env2 vg vol hvg hvol hest,
   fun env vg vol hvg hvol hprobe => fs_count_zero_of_probe env vg vol hvg hvol hprobe,
   fun env1 env2 vg vol hvg hvol hest => fs_at_most_once env1 env2 vg vol hvg hvol hest⟩

/-- C9 witness: with every probe succeeding, a present package is not
reinstalled and an existing physical volume is not recreated. -/
theorem c9_probe_act_idempotence_witness :
    install_nautilus (RunOutcome.completed ⟨0, ""⟩) = Except.ok [] ∧
    List.count ["sudo", "pvcreate", "/dev/mapper/" ++ "system"]
      (check_physical_volumes env_all_ok).2 = 0 :=
  ⟨c9_probe_act_idempotence.1 (RunOutcome.completed ⟨0, ""⟩) rfl,
   c9_probe_act_idempotence.2.2.1 env_all_ok "system" (by decide) rfl⟩
